import Mathlib

/-!
Verification development for the Oracle-s-Lens repository
(src/buffett_app.py, a Streamlit fundamental-analysis app).

The numeric values flowing through the program are numpy/pandas floats.
They are modelled by `PFloat`: a finite rational, a signed infinity, or NaN,
with the IEEE-754 behaviour the program relies on (division by zero yields a
signed infinity, 0/0 yields NaN, NaN propagates through arithmetic and makes
every comparison false).  Statement tables (`stock.financials`,
`stock.balance_sheet`) are modelled as maps from line-item name to an
optional row of per-period values, most-recent period first; a missing row
models the `KeyError` raised by `DataFrame.loc` on an absent label.  Period
columns of the two tables are modelled positionally (zipWith), matching the
aligned fiscal-year indices of one ticker.
-/

/-- Rational addition in a kernel-evaluable form (the library addition on ℚ
does not reduce under `decide`); proved equal to `+` in `qadd_eq`. -/
def qadd (a b : ℚ) : ℚ := Rat.divInt (a.num * b.den + b.num * a.den) (a.den * b.den)

/-- Rational multiplication in a kernel-evaluable form; proved equal to `*`
in `qmul_eq`. -/
def qmul (a b : ℚ) : ℚ := Rat.divInt (a.num * b.num) (a.den * b.den)

/-- Rational division in a kernel-evaluable form; proved equal to `/` in
`qdiv_eq`. -/
def qdiv (a b : ℚ) : ℚ := Rat.divInt (a.num * b.den) (a.den * b.num)

theorem qadd_eq (a b : ℚ) : qadd a b = a + b := by
  rw [qadd]
  conv_rhs => rw [← Rat.num_divInt_den a, ← Rat.num_divInt_den b]
  rw [Rat.divInt_add_divInt _ _ (by exact_mod_cast a.den_ne_zero)
      (by exact_mod_cast b.den_ne_zero)]

theorem qmul_eq (a b : ℚ) : qmul a b = a * b := by
  rw [qmul]
  conv_rhs => rw [← Rat.num_divInt_den a, ← Rat.num_divInt_den b]
  rw [Rat.divInt_mul_divInt _ _ (by exact_mod_cast a.den_ne_zero)
      (by exact_mod_cast b.den_ne_zero)]

theorem qdiv_eq (a b : ℚ) : qdiv a b = a / b := by
  rw [qdiv, Rat.div_def']

/-- A pandas/numpy float value: finite rational, signed infinity, or NaN. -/
inductive PFloat : Type where
  | fin (q : ℚ)
  | inf (pos : Bool)
  | nan
deriving DecidableEq, Repr

namespace PFloat

/-- The check `pandas.isna` on a scalar. -/
def isNan : PFloat → Bool
  | nan => true
  | _ => false

/-- Python `<` on floats: any comparison with NaN is false. -/
def lt : PFloat → PFloat → Bool
  | fin a, fin b => decide (a < b)
  | fin _, inf s => s
  | inf s, fin _ => !s
  | inf s, inf t => !s && t
  | _, _ => false

/-- Python `>` on floats. -/
def gt (a b : PFloat) : Bool := lt b a

/-- Python `== 0` on a float: NaN and the infinities compare unequal to 0. -/
def eq0 : PFloat → Bool
  | fin q => decide (q = 0)
  | _ => false

/-- Python truthiness of a float or None-free value: `0.0` is falsy,
every other float (including NaN and the infinities) is truthy. -/
def toBool : PFloat → Bool
  | fin q => decide (q ≠ 0)
  | _ => true

/-- IEEE addition as performed by numpy. -/
def add : PFloat → PFloat → PFloat
  | nan, _ => nan
  | _, nan => nan
  | fin a, fin b => fin (qadd a b)
  | inf s, fin _ => inf s
  | fin _, inf s => inf s
  | inf s, inf t => if s = t then inf s else nan

/-- IEEE multiplication as performed by numpy. -/
def mul : PFloat → PFloat → PFloat
  | nan, _ => nan
  | _, nan => nan
  | fin a, fin b => fin (qmul a b)
  | inf s, fin b => if b = 0 then nan else inf (s = decide (0 < b))
  | fin a, inf s => if a = 0 then nan else inf (s = decide (0 < a))
  | inf s, inf t => inf (s = t)

/-- IEEE division as performed by numpy/pandas: x/0 is a signed infinity
(for x nonzero), 0/0 is NaN, and no exception is raised. -/
def div : PFloat → PFloat → PFloat
  | nan, _ => nan
  | _, nan => nan
  | fin a, fin b =>
      if b = 0 then (if a = 0 then nan else inf (decide (0 < a)))
      else fin (qdiv a b)
  | fin _, inf _ => fin 0
  | inf s, fin b => if b < 0 then inf (!s) else inf s
  | inf _, inf _ => nan

/-- numpy sum of a list of floats. -/
def sumP (l : List PFloat) : PFloat := l.foldl add (fin 0)

/-- Mean as computed by `pandas.Series.mean()`: NaN entries are skipped (skipna), the mean of an
empty or all-NaN series is NaN, and an infinity propagates into the mean. -/
def mean (l : List PFloat) : PFloat :=
  let nn := l.filter (fun x => !x.isNan)
  if nn.isEmpty then nan else div (sumP nn) (fin (nn.length : ℚ))

end PFloat

/-- Row head as accessed by `Series.iloc[0]`: the first entry of a row; `none` models the exception
raised when the row is absent (`DataFrame.loc` KeyError) or empty
(IndexError). -/
def iloc0 : Option (List PFloat) → Option PFloat
  | some (x :: _) => some x
  | _ => none

/-- The data bundle built by `fetch_company_data` (src/buffett_app.py:78-86),
restricted to the parts the analysis reads: the quote-info mapping (numeric
fields and string fields modelled separately) and the three statement
tables. -/
structure DataPack : Type where
  infoNum : String → Option PFloat
  infoStr : String → Option String
  fin : String → Option (List PFloat)
  bs : String → Option (List PFloat)
  cf : String → Option (List PFloat)

/-- The record returned by `analyze_buffett_v2` (src/buffett_app.py:155-165).
`margin_series := none` models the Python list `[]` installed by the
fallback branch at line 131; `some l` models a pandas Series. -/
structure Report : Type where
  current_roe : PFloat
  avg_roe : PFloat
  roe_pass : Bool
  current_margin : PFloat
  margin_series : Option (List PFloat)
  debt_to_equity : PFloat
  debt_pass : Bool
  book_growth : Bool
  currency : String
deriving DecidableEq, Repr

/-- The keys of the dict literal returned by `analyze_buffett_v2`
(src/buffett_app.py:155-165), in source order. -/
def analysisKeys : List String :=
  ["current_roe", "avg_roe", "roe_pass", "current_margin", "margin_series",
   "debt_to_equity", "debt_pass", "book_growth", "currency"]

/-- Per-period ROE series (src/buffett_app.py:112):
`(net_income / equity) * 100`, elementwise with IEEE semantics. -/
def roeFormula (ni eq : List PFloat) : List PFloat :=
  List.zipWith (fun a b => PFloat.mul (PFloat.div a b) (PFloat.fin 100)) ni eq

/-- Per-period gross-margin series (src/buffett_app.py:124):
`(gross_profit / revenue) * 100`, elementwise with IEEE semantics. -/
def marginFormula (gp rev : List PFloat) : List PFloat :=
  List.zipWith (fun a b => PFloat.mul (PFloat.div a b) (PFloat.fin 100)) gp rev

/-- Block 1 of `analyze_buffett_v2` (src/buffett_app.py:108-118): returns
`(current_roe, avg_roe)`.  The `except` branch fires when either row lookup
raises KeyError or `iloc[0]` raises on an empty series; the pandas division
and `mean()` themselves never raise. -/
def roeBlock (finm bsm : String → Option (List PFloat)) : PFloat × PFloat :=
  match finm "Net Income", bsm "Stockholders Equity" with
  | some ni, some eq =>
      match roeFormula ni eq with
      | [] => (PFloat.fin 0, PFloat.fin 0)
      | x :: xs => (x, PFloat.mean (x :: xs))
  | _, _ => (PFloat.fin 0, PFloat.fin 0)

/-- Block 2 of `analyze_buffett_v2` (src/buffett_app.py:121-131): the margin
series, or `none` for the Python-list fallback when either row is absent.
The block also computes `avg_margin` and `margin_volatility` (lines 125-127),
both of which are discarded by the returned dict; `avg_margin` is modelled
separately as `avgMarginOf`. -/
def marginBlock (finm : String → Option (List PFloat)) : Option (List PFloat) :=
  match finm "Gross Profit", finm "Total Revenue" with
  | some gp, some rev => some (marginFormula gp rev)
  | _, _ => none

/-- The local `avg_margin` of `analyze_buffett_v2` (src/buffett_app.py:125 and
129): the pandas mean of the margin series, sentinel 0 when a row is absent.
It is computed but not included in the returned dict. -/
def avgMarginOf (finm : String → Option (List PFloat)) : PFloat :=
  match finm "Gross Profit", finm "Total Revenue" with
  | some gp, some rev => PFloat.mean (marginFormula gp rev)
  | _, _ => PFloat.fin 0

/-- Block 3 of `analyze_buffett_v2` (src/buffett_app.py:134-144): debt to
equity from "Total Debt", falling back to "Long Term Debt", sentinel 0 when
neither attempt succeeds.  Scalar division of numpy floats does not raise on
a zero denominator (it yields an infinity or NaN), so the `except` branches
fire exactly when a row lookup or `iloc[0]` fails. -/
def debtBlock (bsm : String → Option (List PFloat)) : PFloat :=
  match iloc0 (bsm "Total Debt"), iloc0 (bsm "Stockholders Equity") with
  | some td, some eq => PFloat.div td eq
  | _, _ =>
    match iloc0 (bsm "Long Term Debt"), iloc0 (bsm "Stockholders Equity") with
    | some ld, some eq => PFloat.div ld eq
    | _, _ => PFloat.fin 0

/-- Block 4 of `analyze_buffett_v2` (src/buffett_app.py:148-153): Python
`equity_history.iloc[0] > equity_history.iloc[-1]`, false when the row is
absent or empty (the `except` branch). -/
def bookBlock (bsm : String → Option (List PFloat)) : Bool :=
  match bsm "Stockholders Equity" with
  | some (x :: xs) => PFloat.gt x ((x :: xs).getLast (List.cons_ne_nil x xs))
  | _ => false

/-- The dict literal of `analyze_buffett_v2` (src/buffett_app.py:155-165),
given the already-extracted current margin. -/
def mkReport (dp : DataPack) (ms : Option (List PFloat)) (cm : PFloat) : Report :=
  { current_roe := (roeBlock dp.fin dp.bs).1
    avg_roe := (roeBlock dp.fin dp.bs).2
    roe_pass := PFloat.gt (roeBlock dp.fin dp.bs).2 (PFloat.fin 15)
    current_margin := cm
    margin_series := ms
    debt_to_equity := debtBlock dp.bs
    debt_pass := PFloat.lt (debtBlock dp.bs) (PFloat.fin (Rat.divInt 4 5))
    book_growth := bookBlock dp.bs
    currency := (dp.infoStr "currency").getD "USD" }

/-- The function `analyze_buffett_v2` (src/buffett_app.py:101-165).  The only statement of
the function outside a `try` is the dict construction: there,
`margin_series.iloc[0]` (line 159) raises IndexError when the margin rows
resolved but the series has zero periods; that uncaught exception is the
`Except.error` case. -/
def analyze (dp : DataPack) : Except String Report :=
  match marginBlock dp.fin with
  | some [] => Except.error "IndexError: single positional indexer is out-of-bounds"
  | some (x :: xs) => Except.ok (mkReport dp (some (x :: xs)) x)
  | none => Except.ok (mkReport dp none (PFloat.fin 0))

/-- The data-availability gate of `fetch_company_data`
(src/buffett_app.py:64-66): the only top-level error is raised when neither
"regularMarketPrice" nor "currentPrice" is present in the quote info;
the statement tables are passed through unchecked (empty or not). -/
def fetch_company_data (dp : DataPack) : Except String DataPack :=
  if (dp.infoNum "regularMarketPrice").isNone && (dp.infoNum "currentPrice").isNone then
    Except.error "Ticker not found or delisted. Try adding a suffix (e.g., .TO for Toronto)."
  else Except.ok dp

/-- The main flow (src/buffett_app.py:196-204): fetch, surface a fetch error
to the user, otherwise run `analyze_buffett_v2` on the bundle. -/
def runApp (dp : DataPack) : Except String Report := do
  let d ← fetch_company_data dp
  analyze d

/-- The moat check of the scorecard (src/buffett_app.py:265-266):
`analysis["current_margin"] > 40`. -/
def moat_pass (r : Report) : Bool := PFloat.gt r.current_margin (PFloat.fin 40)

/-- Python scalar division as used inside `safe_calc`: on plain Python
numbers a zero denominator raises ZeroDivisionError; on any non-finite
operand the IEEE result is returned. -/
def pyDivE (a b : PFloat) : Except String PFloat :=
  match a, b with
  | PFloat.fin x, PFloat.fin y =>
      if y = 0 then Except.error "ZeroDivisionError"
      else Except.ok (PFloat.fin (qdiv x y))
  | _, _ => Except.ok (PFloat.div a b)

/-- Whether an `Except` value is a success. -/
def isOkB : Except String PFloat → Bool
  | Except.ok _ => true
  | Except.error _ => false

/-- The body of `safe_calc` before its `except` wrapper
(src/buffett_app.py:91-94): return `default` when the denominator equals 0
or either argument is NaN, otherwise divide. -/
def safe_calcCore (numerator denominator default : PFloat) : Except String PFloat :=
  if PFloat.eq0 denominator || PFloat.isNan denominator || PFloat.isNan numerator then
    Except.ok default
  else pyDivE numerator denominator

/-- The helper `safe_calc` (src/buffett_app.py:90-96).  The Python parameter `default`
defaults to 0 at the call site; it is an explicit argument here. -/
def safe_calc (numerator denominator default : PFloat) : PFloat :=
  match safe_calcCore numerator denominator default with
  | Except.ok v => v
  | Except.error _ => default

/-- The guard of the Graham-number branch (src/buffett_app.py:344-359):
`eps and bvps and eps > 0 and bvps > 0` over
`info.get("trailingEps")` and `info.get("bookValue")`; `None` (absent key)
is falsy, `0.0` is falsy, and a NaN fails the `> 0` comparisons. -/
def grahamDefined (info : String → Option PFloat) : Bool :=
  match info "trailingEps", info "bookValue" with
  | some e, some b =>
      PFloat.toBool e && PFloat.toBool b &&
      PFloat.gt e (PFloat.fin 0) && PFloat.gt b (PFloat.fin 0)
  | _, _ => false

/-- The Graham value computed when the guard passes
(src/buffett_app.py:350): `(22.5 * eps * bvps) ** 0.5`, the float power
modelled as the real square root (the guard guarantees a positive operand,
stated here for finite operands). -/
noncomputable def grahamValue (eps bvps : ℚ) : ℝ :=
  Real.sqrt ((45 / 2 : ℝ) * eps * bvps)

/-- Modelled from the spec: the DCF valuation engine of section 4.3 is not
present in src/buffett_app.py (the spec notes the core is spread across
near-duplicate script variants).  Growth-rate assumption, step 2 of the
spec: the provider-reported revenue-growth figure capped at 15 percent,
defaulting to 5 percent when unavailable. -/
def dcfGrowthRate (reported : Option ℚ) : ℚ :=
  match reported with
  | some g => min g (15 / 100)
  | none => 5 / 100

/-- Modelled from the spec: two-stage DCF of section 4.3.  Base FCF must be
positive and shares outstanding positive; 10 annual periods are projected at
`dcfGrowthRate`, discounted at a fixed 10 percent, with a terminal value at
a fixed 3 percent terminal growth discounted back 10 periods. -/
def dcfFairValue (baseFCF : ℚ) (reported : Option ℚ) (shares : ℚ) : Option ℚ :=
  if baseFCF ≤ 0 then none
  else if shares ≤ 0 then none
  else
    let g := dcfGrowthRate reported
    let r : ℚ := 10 / 100
    let t : ℚ := 3 / 100
    let pvSum :=
      (List.range 10).foldl
        (fun acc i => acc + baseFCF * (1 + g) ^ (i + 1) / (1 + r) ^ (i + 1)) 0
    let terminal := baseFCF * (1 + g) ^ 10 * (1 + t) / (r - t)
    some ((pvSum + terminal / (1 + r) ^ 10) / shares)

/-- Process-wide mutable state visible to the script: the
`st.cache_data`-backed fetch cache (src/buffett_app.py:55).
`analyze_buffett_v2` neither reads nor writes it. -/
structure ProcState : Type where
  cache : List (String × DataPack)

/-- One invocation of the engine threaded through the process state.
`analyze_buffett_v2` references no module-level mutable state and performs
no writes, so the call leaves the state unchanged and its result is a
function of the data bundle alone. -/
def analyzeRun (s : ProcState) (dp : DataPack) : ProcState × Except String Report :=
  (s, analyze dp)

/-- A bundle whose balance sheet resolves neither "Total Debt" nor
"Long Term Debt" (only equity), used against claim C1. -/
def dpC1 : DataPack :=
  { infoNum := fun _ => none
    infoStr := fun _ => none
    fin := fun _ => none
    bs := fun k => if k = "Stockholders Equity" then some [PFloat.fin 100] else none
    cf := fun _ => none }

/-- A bundle with a zero-equity period: net income 100 in both periods,
equity 0 in the most recent period and 100 in the older one. -/
def dpC2 : DataPack :=
  { infoNum := fun _ => none
    infoStr := fun _ => none
    fin := fun k => if k = "Net Income" then some [PFloat.fin 100, PFloat.fin 100] else none
    bs := fun k => if k = "Stockholders Equity" then some [PFloat.fin 0, PFloat.fin 100] else none
    cf := fun _ => none }

/-- A bundle whose quote info carries a price but whose income statement and
balance sheet are entirely empty (every row lookup fails). -/
def dpC3 : DataPack :=
  { infoNum := fun k => if k = "currentPrice" then some (PFloat.fin 100) else none
    infoStr := fun _ => none
    fin := fun _ => none
    bs := fun _ => none
    cf := fun _ => none }

/-- A bundle whose income statement has the margin rows present but with
zero periods (a zero-column table with a populated index). -/
def dpC8 : DataPack :=
  { infoNum := fun _ => none
    infoStr := fun _ => none
    fin := fun k =>
      if k = "Gross Profit" then some []
      else if k = "Total Revenue" then some [] else none
    bs := fun _ => none
    cf := fun _ => none }

/-- A bundle with no quote-info price fields at all (the fetch gate fires). -/
def dpNoPrice : DataPack :=
  { infoNum := fun _ => none
    infoStr := fun _ => none
    fin := fun _ => none
    bs := fun _ => none
    cf := fun _ => none }

/-- A balance sheet resolving "Long Term Debt" and "Stockholders Equity" but
not "Total Debt" (witness input for the C1 fallback clause). -/
def bsW1 : String → Option (List PFloat) := fun k =>
  if k = "Long Term Debt" then some [PFloat.fin 50]
  else if k = "Stockholders Equity" then some [PFloat.fin 100] else none

/-- A balance sheet with a strictly rising two-period equity history
(most-recent first: 5 then 3), witness input for C7. -/
def bsW7 : String → Option (List PFloat) := fun k =>
  if k = "Stockholders Equity" then some [PFloat.fin 5, PFloat.fin 3] else none

/-- Witness input for C8: net income and equity rows only. -/
def dpW8a : DataPack :=
  { infoNum := fun _ => none
    infoStr := fun _ => none
    fin := fun k => if k = "Net Income" then some [PFloat.fin 10] else none
    bs := fun k => if k = "Stockholders Equity" then some [PFloat.fin 20] else none
    cf := fun _ => none }

/-- Witness input for C8: same ROE rows as `dpW8a` but with a broken
(present-and-empty) "Total Debt" row, so the debt computation fails while
the ROE inputs are unchanged. -/
def dpW8b : DataPack :=
  { infoNum := fun _ => none
    infoStr := fun _ => none
    fin := fun k => if k = "Net Income" then some [PFloat.fin 10] else none
    bs := fun k =>
      if k = "Stockholders Equity" then some [PFloat.fin 20]
      else if k = "Total Debt" then some [] else none
    cf := fun _ => none }

/-- Quote info for the C4 witness: trailing EPS 5, book value per share 20. -/
def infoW4 : String → Option PFloat := fun k =>
  if k = "trailingEps" then some (PFloat.fin 5)
  else if k = "bookValue" then some (PFloat.fin 20) else none

theorem PFloat.gt_irrefl (a : PFloat) : PFloat.gt a a = false := by
  cases a with
  | fin q => simp [PFloat.gt, PFloat.lt]
  | inf s => cases s <;> simp [PFloat.gt, PFloat.lt]
  | nan => rfl

/-- Structural description of a successful `analyze_buffett_v2` run: every
field of the returned record comes from its own metric block. -/
theorem analyze_ok_spec (dp : DataPack) (r : Report) (h : analyze dp = Except.ok r) :
    r.current_roe = (roeBlock dp.fin dp.bs).1 ∧
    r.avg_roe = (roeBlock dp.fin dp.bs).2 ∧
    r.roe_pass = PFloat.gt (roeBlock dp.fin dp.bs).2 (PFloat.fin 15) ∧
    r.margin_series = marginBlock dp.fin ∧
    r.debt_to_equity = debtBlock dp.bs ∧
    r.debt_pass = PFloat.lt (debtBlock dp.bs) (PFloat.fin (Rat.divInt 4 5)) ∧
    r.book_growth = bookBlock dp.bs ∧
    r.currency = (dp.infoStr "currency").getD "USD" := by
  unfold analyze at h
  rcases hm : marginBlock dp.fin with _ | l
  · rw [hm] at h
    cases h
    simp [mkReport, hm]
  · rcases l with _ | ⟨x, xs⟩
    · rw [hm] at h
      cases h
    · rw [hm] at h
      cases h
      simp [mkReport, hm]

/-- Current margin of a successful run: head of the margin series when the
series resolved, sentinel 0 otherwise. -/
theorem analyze_ok_current_margin (dp : DataPack) (r : Report) (h : analyze dp = Except.ok r) :
    (∀ x xs, marginBlock dp.fin = some (x :: xs) → r.current_margin = x) ∧
    (marginBlock dp.fin = none → r.current_margin = PFloat.fin 0) := by
  unfold analyze at h
  rcases hm : marginBlock dp.fin with _ | l
  · rw [hm] at h
    cases h
    exact ⟨fun x xs hx => by simp at hx, fun _ => rfl⟩
  · rcases l with _ | ⟨x, xs⟩
    · rw [hm] at h
      cases h
    · rw [hm] at h
      cases h
      refine ⟨fun y ys hy => ?_, fun hn => by simp at hn⟩
      injection hy with hy
      cases hy
      rfl

/-- C1 (corrected): when neither "Total Debt" nor "Long Term Debt" resolves,
`analyze_buffett_v2` reports `debt_to_equity = 0` and, because the pass check
is `0 < 0.8`, `debt_pass = true` (not false as claimed); when "Total Debt"
is unavailable but "Long Term Debt" resolves together with
"Stockholders Equity", the ratio falls back to
LongTermDebt / StockholdersEquity, and a successful run reports exactly
that ratio with pass threshold below 0.8. -/
theorem C1_debt_fallback_amended :
    (∀ bsm : String → Option (List PFloat),
        iloc0 (bsm "Total Debt") = none →
        iloc0 (bsm "Long Term Debt") = none →
        debtBlock bsm = PFloat.fin 0 ∧
        PFloat.lt (debtBlock bsm) (PFloat.fin (Rat.divInt 4 5)) = true)
  ∧ (∀ (bsm : String → Option (List PFloat)) (l e : PFloat),
        iloc0 (bsm "Total Debt") = none →
        iloc0 (bsm "Long Term Debt") = some l →
        iloc0 (bsm "Stockholders Equity") = some e →
        debtBlock bsm = PFloat.div l e)
  ∧ (∀ (dp : DataPack) (r : Report), analyze dp = Except.ok r →
        r.debt_to_equity = debtBlock dp.bs ∧
        r.debt_pass = PFloat.lt (debtBlock dp.bs) (PFloat.fin (Rat.divInt 4 5))) := by
  refine ⟨?_, ?_, ?_⟩
  · intro bsm h1 h2
    have hb : debtBlock bsm = PFloat.fin 0 := by
      unfold debtBlock
      rw [h1, h2]
    exact ⟨hb, by rw [hb]; decide⟩
  · intro bsm l e h1 h2 h3
    unfold debtBlock
    rw [h1, h2, h3]
  · intro dp r h
    exact ⟨(analyze_ok_spec dp r h).2.2.2.2.1, (analyze_ok_spec dp r h).2.2.2.2.2.1⟩

theorem C1_debt_fallback_witness :
    debtBlock bsW1 = PFloat.div (PFloat.fin 50) (PFloat.fin 100) :=
  C1_debt_fallback_amended.2.1 bsW1 (PFloat.fin 50) (PFloat.fin 100)
    (by decide) (by decide) (by decide)

/-- C1 counterexample to the claim as stated: a balance sheet resolving
neither debt line item yields `debt_pass = true`, not false. -/
theorem C1_no_debt_counterexample :
    analyze dpC1 = Except.ok
      { current_roe := PFloat.fin 0, avg_roe := PFloat.fin 0, roe_pass := false,
        current_margin := PFloat.fin 0, margin_series := none,
        debt_to_equity := PFloat.fin 0, debt_pass := true,
        book_growth := false, currency := "USD" } := by rfl

/-- C2: the code evaluated at a period with zero stockholders equity.  The
pandas division yields +Infinity for that period, it is not excluded, and
both the current and the average ROE of the report are +Infinity — the
report does contain an Infinity value, against the spec invariant. -/
theorem C2_failing_eval :
    analyze dpC2 = Except.ok
      { current_roe := PFloat.inf true, avg_roe := PFloat.inf true, roe_pass := true,
        current_margin := PFloat.fin 0, margin_series := none,
        debt_to_equity := PFloat.fin 0, debt_pass := true,
        book_growth := false, currency := "USD" } := by rfl

/-- C3 counterexample to the claim as stated: a bundle whose income
statement and balance sheet are entirely empty is not short-circuited with
a data-availability error; the analysis proceeds and returns a complete
report with every metric at its fallback sentinel. -/
theorem C3_empty_statements_counterexample :
    runApp dpC3 = Except.ok
      { current_roe := PFloat.fin 0, avg_roe := PFloat.fin 0, roe_pass := false,
        current_margin := PFloat.fin 0, margin_series := none,
        debt_to_equity := PFloat.fin 0, debt_pass := true,
        book_growth := false, currency := "USD" } := by rfl

/-- C3 (corrected): the only top-level short-circuit is the missing
market-price check of `fetch_company_data`; when a price field is present,
empty statement tables do NOT short-circuit — `analyze_buffett_v2` runs and
returns the full sentinel report. -/
theorem C3_short_circuit_amended :
    (∀ dp : DataPack,
        dp.infoNum "regularMarketPrice" = none →
        dp.infoNum "currentPrice" = none →
        runApp dp = Except.error
          "Ticker not found or delisted. Try adding a suffix (e.g., .TO for Toronto).")
  ∧ (∀ dp : DataPack,
        (dp.infoNum "currentPrice").isNone = false →
        (∀ k, dp.fin k = none) → (∀ k, dp.bs k = none) →
        runApp dp = Except.ok
          { current_roe := PFloat.fin 0, avg_roe := PFloat.fin 0, roe_pass := false,
            current_margin := PFloat.fin 0, margin_series := none,
            debt_to_equity := PFloat.fin 0, debt_pass := true,
            book_growth := false,
            currency := (dp.infoStr "currency").getD "USD" }) := by
  constructor
  · intro dp h1 h2
    have hfetch : fetch_company_data dp = Except.error
        "Ticker not found or delisted. Try adding a suffix (e.g., .TO for Toronto)." := by
      simp [fetch_company_data, h1, h2]
    show Except.bind (fetch_company_data dp) analyze = _
    rw [hfetch]
    rfl
  · intro dp hp hfin hbs
    have hfetch : fetch_company_data dp = Except.ok dp := by
      simp [fetch_company_data, hp]
    have hrun : runApp dp = analyze dp := by
      show Except.bind (fetch_company_data dp) analyze = _
      rw [hfetch]
      rfl
    rw [hrun]
    have hm : marginBlock dp.fin = none := by
      simp [marginBlock, hfin]
    have ha : analyze dp = Except.ok (mkReport dp none (PFloat.fin 0)) := by
      unfold analyze
      rw [hm]
    rw [ha]
    have hroe : roeBlock dp.fin dp.bs = (PFloat.fin 0, PFloat.fin 0) := by
      simp [roeBlock, hfin]
    have hdebt : debtBlock dp.bs = PFloat.fin 0 := by
      simp [debtBlock, hbs, iloc0]
    have hbook : bookBlock dp.bs = false := by
      simp [bookBlock, hbs]
    refine congrArg Except.ok ?_
    unfold mkReport
    rw [hroe, hdebt, hbook]
    congr 1

theorem C3_short_circuit_witness :
    runApp dpNoPrice = Except.error
      "Ticker not found or delisted. Try adding a suffix (e.g., .TO for Toronto)." :=
  C3_short_circuit_amended.1 dpNoPrice rfl rfl

/-- C4 (confirmed): the Graham branch computes a value exactly when both
`trailingEps` and `bookValue` are present and strictly positive, the value
is `sqrt(22.5 * EPS * BVPS)`, and at EPS 5, BVPS 20 it is `sqrt 2250`,
strictly between 47.43 and 47.44. -/
theorem C4_graham_iff :
    (∀ (info : String → Option PFloat) (e b : ℚ),
        info "trailingEps" = some (PFloat.fin e) →
        info "bookValue" = some (PFloat.fin b) →
        (grahamDefined info = true ↔ (0 < e ∧ 0 < b)))
  ∧ (∀ info : String → Option PFloat,
        info "trailingEps" = none → grahamDefined info = false)
  ∧ (∀ info : String → Option PFloat,
        info "bookValue" = none → grahamDefined info = false)
  ∧ grahamValue 5 20 = Real.sqrt 2250
  ∧ (47.43 : ℝ) < grahamValue 5 20
  ∧ grahamValue 5 20 < 47.44 := by
  have hval : grahamValue 5 20 = Real.sqrt 2250 := by
    unfold grahamValue
    norm_num
  refine ⟨?_, ?_, ?_, hval, ?_, ?_⟩
  · intro info e b h1 h2
    unfold grahamDefined
    rw [h1, h2]
    constructor
    · intro hg
      simp only [PFloat.toBool, PFloat.gt, PFloat.lt, Bool.and_eq_true,
        decide_eq_true_eq] at hg
      exact ⟨hg.1.2, hg.2⟩
    · intro hg
      simp only [PFloat.toBool, PFloat.gt, PFloat.lt, Bool.and_eq_true,
        decide_eq_true_eq]
      exact ⟨⟨⟨hg.1.ne', hg.2.ne'⟩, hg.1⟩, hg.2⟩
  · intro info h
    rcases h2 : info "bookValue" <;> simp [grahamDefined, h, h2]
  · intro info h
    rcases h2 : info "trailingEps" <;> simp [grahamDefined, h, h2]
  · rw [hval]
    rw [show (47.43 : ℝ) = ((4743 : ℝ) / 100) by norm_num]
    rw [Real.lt_sqrt (by norm_num)]
    norm_num
  · rw [hval]
    rw [show (47.44 : ℝ) = ((4744 : ℝ) / 100) by norm_num]
    rw [Real.sqrt_lt' (by norm_num)]
    norm_num

theorem C4_graham_witness : grahamDefined infoW4 = true :=
  (C4_graham_iff.1 infoW4 5 20 (by decide) (by decide)).mpr (by norm_num)

/-- C5 (corrected): the margin series is `(GrossProfit / TotalRevenue) * 100`
per period, whose head (latest period) is reported as the current margin;
the arithmetic mean is computed (skipping NaN periods, i.e. periods where a
line item value is absent) but is NOT included in the returned report; when
the line items are unavailable altogether the current margin is the
sentinel 0, the series is the empty-list fallback, and the moat check
fails. -/
theorem C5_margin_amended :
    (∀ (finm : String → Option (List PFloat)) (gp rev : List PFloat),
        finm "Gross Profit" = some gp → finm "Total Revenue" = some rev →
        marginBlock finm = some (marginFormula gp rev) ∧
        avgMarginOf finm = PFloat.mean (marginFormula gp rev))
  ∧ (∀ finm : String → Option (List PFloat),
        finm "Gross Profit" = none ∨ finm "Total Revenue" = none →
        marginBlock finm = none ∧ avgMarginOf finm = PFloat.fin 0)
  ∧ (∀ l : List PFloat, PFloat.mean (PFloat.nan :: l) = PFloat.mean l)
  ∧ (∀ a b : PFloat, PFloat.isNan a = true →
        PFloat.isNan (PFloat.mul (PFloat.div a b) (PFloat.fin 100)) = true)
  ∧ (∀ (dp : DataPack) (r : Report) (x : PFloat) (xs : List PFloat),
        marginBlock dp.fin = some (x :: xs) → analyze dp = Except.ok r →
        r.current_margin = x ∧ r.margin_series = some (x :: xs))
  ∧ (∀ (dp : DataPack) (r : Report),
        marginBlock dp.fin = none → analyze dp = Except.ok r →
        r.current_margin = PFloat.fin 0 ∧ r.margin_series = none ∧
        moat_pass r = false) := by
  refine ⟨?_, ?_, ?_, ?_, ?_, ?_⟩
  · intro finm gp rev h1 h2
    constructor
    · simp [marginBlock, h1, h2]
    · simp [avgMarginOf, h1, h2]
  · intro finm h
    rcases h with h | h
    · constructor
      · rcases h2 : finm "Total Revenue" <;> simp [marginBlock, h, h2]
      · rcases h2 : finm "Total Revenue" <;> simp [avgMarginOf, h, h2]
    · constructor
      · rcases h2 : finm "Gross Profit" <;> simp [marginBlock, h, h2]
      · rcases h2 : finm "Gross Profit" <;> simp [avgMarginOf, h, h2]
  · intro l
    simp [PFloat.mean, PFloat.isNan]
  · intro a b ha
    cases a <;> simp [PFloat.isNan] at ha ⊢
    cases b <;> rfl
  · intro dp r x xs hm h
    exact ⟨(analyze_ok_current_margin dp r h).1 x xs hm,
      by rw [(analyze_ok_spec dp r h).2.2.2.1, hm]⟩
  · intro dp r hm h
    have hc := (analyze_ok_current_margin dp r h).2 hm
    refine ⟨hc, by rw [(analyze_ok_spec dp r h).2.2.2.1, hm], ?_⟩
    rw [moat_pass, hc]
    decide

theorem C5_margin_witness :
    marginBlock (fun _ => none) = none ∧ avgMarginOf (fun _ => none) = PFloat.fin 0 :=
  C5_margin_amended.2.1 (fun _ => none) (Or.inl rfl)

/-- C5 counterexample to the claim as stated: the dict returned by
`analyze_buffett_v2` has no average-margin entry at all (the local
`avg_margin` of line 125 is dropped), so the report does not contain the
arithmetic mean. -/
theorem C5_no_average_in_report_counterexample : "avg_margin" ∉ analysisKeys := by
  decide

/-- C6 (confirmed, modelled from the spec): the growth rate actually used by
the DCF projection is the reported revenue growth clamped to at most 15
percent (a 40 percent report projects identically to a 15 percent report),
defaults to 5 percent when unavailable, and negative reported growth passes
through with no lower floor. -/
theorem C6_dcf_growth_cap :
    (∀ f s : ℚ, dcfFairValue f (some (40 / 100)) s = dcfFairValue f (some (15 / 100)) s)
  ∧ dcfGrowthRate none = 5 / 100
  ∧ dcfGrowthRate (some (40 / 100)) = 15 / 100
  ∧ (∀ g : ℚ, g < 0 → dcfGrowthRate (some g) = g)
  ∧ (∀ g : ℚ, dcfGrowthRate (some g) ≤ 15 / 100) := by
  have hgr : dcfGrowthRate (some (40 / 100)) = 15 / 100 := by
    unfold dcfGrowthRate
    norm_num [min_def]
  refine ⟨?_, rfl, hgr, ?_, ?_⟩
  · intro f s
    unfold dcfFairValue
    rw [hgr]
    rw [show dcfGrowthRate (some (15 / 100)) = 15 / 100 by
      unfold dcfGrowthRate; norm_num [min_def]]
  · intro g hg
    unfold dcfGrowthRate
    exact min_eq_left (le_trans hg.le (by norm_num))
  · intro g
    exact min_le_right _ _

theorem C6_dcf_growth_witness : dcfGrowthRate (some (-(10 / 100))) = -(10 / 100) :=
  C6_dcf_growth_cap.2.2.2.1 (-(10 / 100)) (by norm_num)

/-- C7 (confirmed): the book-value-trend flag is the Python comparison of the
most recent equity value with the oldest one — true exactly when the former
strictly exceeds the latter — and it is false whenever fewer than two
periods (or no equity row at all) are available. -/
theorem C7_book_value_trend :
    (∀ (bsm : String → Option (List PFloat)) (x : PFloat) (xs : List PFloat),
        bsm "Stockholders Equity" = some (x :: xs) →
        bookBlock bsm = PFloat.gt x ((x :: xs).getLast (List.cons_ne_nil x xs)))
  ∧ (∀ (bsm : String → Option (List PFloat)) (l : List PFloat),
        bsm "Stockholders Equity" = some l → l.length < 2 → bookBlock bsm = false)
  ∧ (∀ bsm : String → Option (List PFloat),
        bsm "Stockholders Equity" = none → bookBlock bsm = false) := by
  refine ⟨?_, ?_, ?_⟩
  · intro bsm x xs h
    unfold bookBlock
    rw [h]
  · intro bsm l h hl
    rcases l with _ | ⟨x, xs⟩
    · unfold bookBlock
      rw [h]
    · rcases xs with _ | ⟨y, ys⟩
      · unfold bookBlock
        rw [h]
        simpa using PFloat.gt_irrefl x
      · simp at hl
        omega
  · intro bsm h
    unfold bookBlock
    rw [h]

theorem C7_book_value_trend_witness : bookBlock bsW7 = true := by
  rw [C7_book_value_trend.1 bsW7 (PFloat.fin 5) [PFloat.fin 3] (by decide)]
  decide

/-- C8 counterexample to the claim as stated: when the margin line items are
present but carry zero periods, the report construction itself raises (the
uncaught IndexError at line 159), so the analysis does not return a record
at all — a failure inside one metric aborts the whole result. -/
theorem C8_empty_margin_rows_counterexample :
    analyze dpC8 = Except.error "IndexError: single positional indexer is out-of-bounds" := by
  rfl

/-- C8 (corrected): the four metric computations actually present (ROE,
gross margin, debt ratio, book-value trend) are mutually independent — each
depends only on its own line items, so a missing item degrades only its own
metric — and the analysis returns a complete record whenever the margin
series is not the present-but-empty pathological case (free cash flow is
not among the computed metrics). -/
theorem C8_independence_amended :
    (∀ dp dpA : DataPack,
        dp.fin "Net Income" = dpA.fin "Net Income" →
        dp.bs "Stockholders Equity" = dpA.bs "Stockholders Equity" →
        roeBlock dp.fin dp.bs = roeBlock dpA.fin dpA.bs)
  ∧ (∀ dp dpA : DataPack,
        dp.fin "Gross Profit" = dpA.fin "Gross Profit" →
        dp.fin "Total Revenue" = dpA.fin "Total Revenue" →
        marginBlock dp.fin = marginBlock dpA.fin)
  ∧ (∀ dp dpA : DataPack,
        dp.bs "Total Debt" = dpA.bs "Total Debt" →
        dp.bs "Long Term Debt" = dpA.bs "Long Term Debt" →
        dp.bs "Stockholders Equity" = dpA.bs "Stockholders Equity" →
        debtBlock dp.bs = debtBlock dpA.bs)
  ∧ (∀ dp dpA : DataPack,
        dp.bs "Stockholders Equity" = dpA.bs "Stockholders Equity" →
        bookBlock dp.bs = bookBlock dpA.bs)
  ∧ (∀ dp : DataPack, marginBlock dp.fin ≠ some [] →
        analyze dp = Except.ok (mkReport dp (marginBlock dp.fin)
          (match marginBlock dp.fin with
            | some (x :: _) => x
            | _ => PFloat.fin 0))) := by
  refine ⟨?_, ?_, ?_, ?_, ?_⟩
  · intro dp dpA h1 h2
    unfold roeBlock
    rw [h1, h2]
  · intro dp dpA h1 h2
    unfold marginBlock
    rw [h1, h2]
  · intro dp dpA h1 h2 h3
    unfold debtBlock
    rw [h1, h2, h3]
  · intro dp dpA h1
    unfold bookBlock
    rw [h1]
  · intro dp hne
    unfold analyze
    rcases hm : marginBlock dp.fin with _ | l
    · rfl
    · rcases l with _ | ⟨x, xs⟩
      · exact absurd hm hne
      · rfl

theorem C8_independence_witness :
    roeBlock dpW8a.fin dpW8a.bs = roeBlock dpW8b.fin dpW8b.bs :=
  C8_independence_amended.1 dpW8a dpW8b (by decide) (by decide)

/-- C9 (confirmed): `analyze_buffett_v2` reads only its argument and touches
no module-level mutable state; invoking it twice on the same bundle leaves
the process state unchanged and yields the same report, and the report does
not depend on the state at all. -/
theorem C9_pure_idempotent :
    ∀ (s : ProcState) (dp : DataPack),
      (analyzeRun (analyzeRun s dp).1 dp).2 = (analyzeRun s dp).2 ∧
      (analyzeRun s dp).1 = s ∧
      ∀ s2 : ProcState, (analyzeRun s2 dp).2 = (analyzeRun s dp).2 :=
  fun _ _ => ⟨rfl, rfl, fun _ => rfl⟩

/-- C10 (confirmed): `safe_calc` never lets an exception escape — its
guarded body already avoids the only raising case — it returns the supplied
default whenever the denominator equals 0 or either argument is NaN, and
returns the IEEE quotient otherwise. -/
theorem C10_safe_calc_total :
    (∀ n d c : PFloat, isOkB (safe_calcCore n d c) = true)
  ∧ (∀ n d c : PFloat,
        (PFloat.eq0 d || PFloat.isNan d || PFloat.isNan n) = true →
        safe_calc n d c = c)
  ∧ (∀ n d c : PFloat,
        (PFloat.eq0 d || PFloat.isNan d || PFloat.isNan n) = false →
        safe_calc n d c = PFloat.div n d) := by
  refine ⟨?_, ?_, ?_⟩
  · intro n d c
    unfold safe_calcCore
    rcases hg : (PFloat.eq0 d || PFloat.isNan d || PFloat.isNan n) with _ | _
    · simp only [Bool.false_eq_true, if_false]
      rcases n with q | s | _ <;> rcases d with q2 | s2 | _ <;>
        simp [PFloat.eq0, PFloat.isNan, Bool.or_eq_false_iff, decide_eq_false_iff_not] at hg ⊢ <;>
        simp [pyDivE, isOkB, hg]
    · simp [isOkB]
  · intro n d c hg
    unfold safe_calc safe_calcCore
    rw [hg]
    rfl
  · intro n d c hg
    unfold safe_calc safe_calcCore
    rw [hg]
    rcases n with q | s | _ <;> rcases d with q2 | s2 | _ <;>
      simp [PFloat.eq0, PFloat.isNan, Bool.or_eq_false_iff, decide_eq_false_iff_not] at hg ⊢ <;>
      simp [pyDivE, PFloat.div, hg]

theorem C10_safe_calc_witness :
    safe_calc (PFloat.fin 10) (PFloat.fin 0) (PFloat.fin 7) = PFloat.fin 7 :=
  C10_safe_calc_total.2.1 (PFloat.fin 10) (PFloat.fin 0) (PFloat.fin 7) (by decide)

